import Mathlib

/-!
Shallow embedding of the NBAStats repository (src/nbastats.py, src/plugin.py):
the JSON-to-domain extraction functions, the identifier-cache update logic,
the endpoint-URL construction helpers and the ordinal formatter, together
with theorems settling the frozen specification claims.

JSON documents are embedded as the inductive `J`; Python dictionaries are
embedded as association lists where a later binding overwrites an earlier
one (`dlookup` returns the last binding, matching Python assignment order).
Fallible Python code (raising KeyError / TypeError / IndexError /
ValueError) is embedded in the `Except PyErr` monad, with accesses
performed in the source's evaluation order so that the first failing
access determines the error.  Network fetches are embedded by passing the
fetched document (and, where the source inspects it, the HTTP-cache
freshness flag) as explicit arguments.
-/

namespace NBAStats

/-- Parsed JSON values (floats do not occur in the fields the code reads as
numbers; numeric JSON fields used by the code are integers, and the
fractional statistics arrive as strings). -/
inductive J : Type where
  | null : J
  | bool (b : Bool) : J
  | num (n : Int) : J
  | str (s : String) : J
  | arr (elems : List J) : J
  | obj (fields : List (String × J)) : J

mutual

/-- Structural equality of JSON values (Python `==` restricted to the
comparisons the code performs: like-typed values). -/
def J.beq : J → J → Bool
  | J.null, J.null => true
  | J.bool a, J.bool b => a == b
  | J.num a, J.num b => a == b
  | J.str a, J.str b => a == b
  | J.arr xs, J.arr ys => J.beqList xs ys
  | J.obj xs, J.obj ys => J.beqObj xs ys
  | _, _ => false

/-- Elementwise equality of JSON arrays. -/
def J.beqList : List J → List J → Bool
  | [], [] => true
  | x :: xs, y :: ys => J.beq x y && J.beqList xs ys
  | _, _ => false

/-- Entrywise equality of JSON objects. -/
def J.beqObj : List (String × J) → List (String × J) → Bool
  | [], [] => true
  | (k1, v1) :: xs, (k2, v2) :: ys => k1 == k2 && J.beq v1 v2 && J.beqObj xs ys
  | _, _ => false

end

instance : BEq J := ⟨J.beq⟩

/-- The Python exception kinds that the embedded code can raise; a KeyError
carries the offending key (a JSON value, since Python dictionaries here are
keyed both by strings and by raw JSON field values).
`malformedResponse` is the error kind the specification's §7 prescribes for
schema violations; it is included so that statements can compare the code's
actual errors against it (no code in src/ ever raises it). -/
inductive PyErr : Type where
  | keyError (key : J) : PyErr
  | indexError : PyErr
  | typeError : PyErr
  | valueError (msg : String) : PyErr
  | malformedResponse : PyErr

/-- Lookup in a Python dictionary represented as the list of assignments in
the order they were performed: a later assignment to the same key
overwrites an earlier one, so the *last* binding wins. -/
def dlookup {κ α : Type} [BEq κ] : List (κ × α) → κ → Option α
  | [], _ => none
  | p :: rest, k =>
    match dlookup rest k with
    | some v => some v
    | none => if p.1 == k then some p.2 else none

/-- `j[k]` for a string key `k`: KeyError when the object lacks the key,
TypeError when `j` is not a JSON object (Python raises TypeError when
subscripting a non-dict with a string). -/
def getField (j : J) (k : String) : Except PyErr J :=
  match j with
  | J.obj fields =>
    match dlookup fields k with
    | some v => Except.ok v
    | none => Except.error (PyErr.keyError (J.str k))
  | _ => Except.error PyErr.typeError

/-- Iterating a JSON value as a Python list: TypeError unless it is an
array. -/
def asArr (j : J) : Except PyErr (List J) :=
  match j with
  | J.arr elems => Except.ok elems
  | _ => Except.error PyErr.typeError

/-- Python `value == n` for an integer literal `n` (booleans compare as
0/1 in Python). -/
def pyEqNum (j : J) (n : Int) : Bool :=
  match j with
  | J.num m => m = n
  | J.bool b => (if b then (1 : Int) else 0) = n
  | _ => false

/- ------------------------------------------------------------------ -/
/- Domain model: the namedtuples of src/nbastats.py (lines 26-31).    -/
/- Field values are kept as the raw JSON values the source stores.    -/
/- ------------------------------------------------------------------ -/

/-- `PlayerName = namedtuple('PlayerName', 'first_name, last_name')`. -/
structure PlayerName : Type where
  first_name : J
  last_name : J

/-- `Record = namedtuple('Record', 'wins, loses')`. -/
structure Record : Type where
  wins : Int
  loses : Int
deriving DecidableEq, Repr

/-- `Streak = namedtuple('Streak', 'games, is_winning')`; the source stores
the raw JSON value of `isWinStreak` without conversion. -/
structure Streak : Type where
  games : Int
  is_winning : J

/-- `PlayerStatistic = namedtuple('PlayerStatistic', 'category, player_name, value')`. -/
structure PlayerStatistic : Type where
  category : String
  player_name : PlayerName
  value : J

/-- `LeaderStatistic = namedtuple('LeaderStatistic', 'category, players, value')`. -/
structure LeaderStatistic : Type where
  category : String
  players : List PlayerName
  value : J

/- ------------------------------------------------------------------ -/
/- Numeric conversions: Python `int(...)` and `float(...)` applied to  -/
/- JSON field values (used by `_extractTeamRecord`).                   -/
/- ------------------------------------------------------------------ -/

/-- The value of a digit string. -/
def digitsToNat (cs : List Char) : Nat :=
  cs.foldl (fun acc c => acc * 10 + (c.toNat - 48)) 0

/-- Python `int(s)` on a decimal string: optional sign, then digits. -/
def parseIntStr (s : String) : Except PyErr Int :=
  match s.data with
  | '-' :: rest =>
    if rest ≠ [] ∧ rest.all (·.isDigit) then Except.ok (-(digitsToNat rest : Int))
    else Except.error (PyErr.valueError s)
  | cs =>
    if cs ≠ [] ∧ cs.all (·.isDigit) then Except.ok (digitsToNat cs)
    else Except.error (PyErr.valueError s)

/-- Python `int(x)` on a JSON value. -/
def pyInt (j : J) : Except PyErr Int :=
  match j with
  | J.num n => Except.ok n
  | J.str s => parseIntStr s
  | J.bool b => Except.ok (if b then 1 else 0)
  | _ => Except.error PyErr.typeError

/-- Python `float(s)` on a decimal string: optional sign, an integer part
and an optional fractional part, at least one digit overall (so ".500" and
"3." are accepted, as in Python).  The value is represented exactly as a
rational. -/
def parseFloatStr (s : String) : Except PyErr Rat :=
  let signed : Bool × List Char :=
    match s.data with
    | '-' :: rest => (true, rest)
    | cs => (false, cs)
  let ip := signed.2.takeWhile (· ≠ '.')
  let speriod := signed.2.dropWhile (· ≠ '.')
  let build : List Char → List Char → Except PyErr Rat := fun ip fp =>
    if (ip ++ fp) ≠ [] ∧ (ip ++ fp).all (·.isDigit) then
      let mag : Rat := (digitsToNat ip : Rat) + (digitsToNat fp : Rat) / ((10 : Rat) ^ fp.length)
      Except.ok (if signed.1 then -mag else mag)
    else Except.error (PyErr.valueError s)
  match speriod with
  | [] => build ip []
  | _ :: fp => build ip fp

/-- Python `float(x)` on a JSON value. -/
def pyFloat (j : J) : Except PyErr Rat :=
  match j with
  | J.num n => Except.ok (n : Rat)
  | J.str s => parseFloatStr s
  | J.bool b => Except.ok (if b then 1 else 0)
  | _ => Except.error PyErr.typeError

/- ------------------------------------------------------------------ -/
/- Identifier caches (src/nbastats.py lines 63-67, 325-391).           -/
/- The team-list and roster documents are passed in their parsed form  -/
/- (the array under json['league']['standard']); the HTTP fetch is     -/
/- embedded as the pair (document, from_cache flag).                   -/
/- ------------------------------------------------------------------ -/

/-- One entry of the team-list document's `league.standard` array, with
the three fields the code reads. -/
structure TeamEntry : Type where
  tricode : String
  teamId : String
  isNBAFranchise : Bool

/-- One entry of the roster document's `league.standard` array, with the
three fields the code reads (kept as raw JSON values). -/
structure PlayerEntry : Type where
  personId : J
  firstName : J
  lastName : J

/-- The loop body of `_updateTeamDictionaries` restricted to the
`tricode_to_ids` dictionary: one insertion per team whose
`isNBAFranchise` flag is set, in document order. -/
def buildTricodeToIds (teams : List TeamEntry) : List (String × String) :=
  (teams.filter (·.isNBAFranchise)).map (fun t => (t.tricode, t.teamId))

/-- The loop body of `_updateTeamDictionaries` restricted to the
`ids_to_tricodes` dictionary. -/
def buildIdsToTricodes (teams : List TeamEntry) : List (String × String) :=
  (teams.filter (·.isNBAFranchise)).map (fun t => (t.teamId, t.tricode))

/-- The loop of `_fetchPersonIDdict`: one insertion per listed player,
mapping the raw `personId` value to the `PlayerName` pair. -/
def buildPersonIds (players : List PlayerEntry) : List (J × PlayerName) :=
  players.map (fun p => (p.personId, ⟨p.firstName, p.lastName⟩))

/-- The three process-wide cached dictionaries of `NBAStatsGetter.__init__`
(lines 63-67), all starting as `None`. -/
structure TeamCaches : Type where
  person_ids : Option (List (J × PlayerName))
  team_ids_to_tricodes : Option (List (String × String))
  team_tricodes_to_ids : Option (List (String × String))

/-- `_updateTeamDictionaries` (lines 340-361): the fetch of the team-list
document is embedded as the pair `(doc, from_cache)`.  When the fetch was a
cache hit and both in-memory mappings exist, the state is returned
untouched; otherwise both dictionaries are rebuilt from the document and
replace the old ones wholesale. -/
def updateTeamDictionaries (doc : List TeamEntry) (from_cache : Bool)
    (st : TeamCaches) : TeamCaches :=
  if from_cache = true ∧ st.team_tricodes_to_ids ≠ none ∧
      st.team_ids_to_tricodes ≠ none then st
  else
    { st with
      team_tricodes_to_ids := some (buildTricodeToIds doc)
      team_ids_to_tricodes := some (buildIdsToTricodes doc) }

/-- `_tricodeToTeamIDdict` (lines 363-367): update, then return the
tricode→id mapping. -/
def tricodeToTeamIDdict (doc : List TeamEntry) (from_cache : Bool)
    (st : TeamCaches) : TeamCaches × Option (List (String × String)) :=
  let st' := updateTeamDictionaries doc from_cache st
  (st', st'.team_tricodes_to_ids)

/-- `_teamIDtoTricodeDict` (lines 369-373): update, then return the
id→tricode mapping. -/
def teamIDtoTricodeDict (doc : List TeamEntry) (from_cache : Bool)
    (st : TeamCaches) : TeamCaches × Option (List (String × String)) :=
  let st' := updateTeamDictionaries doc from_cache st
  (st', st'.team_ids_to_tricodes)

/-- `_fetchPersonIDdict` (lines 375-391): on a cache hit with an existing
in-memory mapping, return it unchanged; otherwise rebuild the dictionary
from the document, store it and return it. -/
def fetchPersonIDdict (doc : List PlayerEntry) (from_cache : Bool)
    (st : TeamCaches) : TeamCaches × List (J × PlayerName) :=
  match from_cache, st.person_ids with
  | true, some d => (st, d)
  | _, _ =>
    let d := buildPersonIds doc
    ({ st with person_ids := some d }, d)

/-- The dictionary access of `_teamID` (line 333) / `playerFullName`
(line 328): a plain Python `d[k]`, raising KeyError when absent. -/
def teamIDLookup (dict : List (String × String)) (team_tricode : String) :
    Except PyErr String :=
  match dlookup dict team_tricode with
  | some v => Except.ok v
  | none => Except.error (PyErr.keyError (J.str team_tricode))

/-- `playerFullName` (lines 325-328) applied to an already-fetched person
dictionary: `names[person_id]`. -/
def playerFullName (names : List (J × PlayerName)) (person_id : J) :
    Except PyErr PlayerName :=
  match dlookup names person_id with
  | some n => Except.ok n
  | none => Except.error (PyErr.keyError person_id)

/- ------------------------------------------------------------------ -/
/- Tricode validation (lines 46-51, 163-170, 263-264) and the team     -/
/- lookup prefixes of `teamRecord` / `teamLeaders` / `gameLeaders`.    -/
/- ------------------------------------------------------------------ -/

/-- `self._TEAM_TRICODES` (lines 46-51). -/
def TEAM_TRICODES : List String :=
  ["CHA", "ATL", "IND", "MEM", "DET",
   "UTA", "CHI", "TOR", "CLE", "OKC",
   "DAL", "MIN", "BOS", "SAS", "MIA",
   "DEN", "LAL", "PHX", "NOP", "MIL",
   "HOU", "NYK", "ORL", "SAC", "PHI",
   "BKN", "POR", "GSW", "LAC", "WAS"]

/-- ASCII upper-casing of one character (the effect of Python's
`str.upper` on the ASCII tricode strings the code handles). -/
def upChar (c : Char) : Char :=
  if 'a' ≤ c ∧ c ≤ 'z' then Char.ofNat (c.toNat - 32) else c

/-- Python `s.upper()` (ASCII). -/
def pyUpper (s : String) : String :=
  ⟨s.data.map upChar⟩

/-- `_isTriCodeValid` (lines 263-264): `ttt.upper() in self._TEAM_TRICODES`. -/
def isTriCodeValid (ttt : String) : Bool :=
  TEAM_TRICODES.contains (pyUpper ttt)

/-- `_parseTeamTricode` (lines 163-170): normalize to upper case, then
validate. -/
def parseTeamTricode (team : String) : Except PyErr String :=
  let t := pyUpper team
  if !isTriCodeValid t then Except.error (PyErr.valueError "Invalid team value")
  else Except.ok t

/-- The prefix of `teamRecord` (lines 101-106) up to the team-id lookup:
validate the tricode case-insensitively, then look the *original* string
up in the tricode→id dictionary. -/
def teamRecordTeamId (team : String) (dict : List (String × String)) :
    Except PyErr String :=
  if !isTriCodeValid team then Except.error (PyErr.valueError "Invalid team value")
  else teamIDLookup dict team

/-- The prefix of `teamLeaders` (lines 90-96) / `gameLeaders` (lines
111-115) up to the team-id lookup: normalize via `_parseTeamTricode`, then
look the normalized string up. -/
def teamLeadersTeamId (team : String) (dict : List (String × String)) :
    Except PyErr String := do
  let t ← parseTeamTricode team
  teamIDLookup dict t

/- ------------------------------------------------------------------ -/
/- Domain extractors (src/nbastats.py lines 172-288).                  -/
/- ------------------------------------------------------------------ -/

/-- `self._STAT_CATEGORIES` (lines 53-54): the member set of the source's
`frozenset` literal, listed here in the literal's written order.  This
fixes only the *membership*; iterating the `frozenset` (`for category in
self.statCategories()`, line 228) visits the members in CPython's
hash-table order, which string-hash randomization makes
implementation-defined and per-process — any duplicate-free enumeration
of these ten strings, i.e. any permutation of this list, is a possible
iteration order. -/
def STAT_CATEGORIES : List String :=
  ["ppg", "trpg", "apg", "fgp", "ftp",
   "tpp", "bpg", "spg", "tpg", "pfpg"]

/-- The loop body of `_extractTeamLeaders` (lines 228-236) for one
category: `json[category][0]`, then the `value` / `personId` fields, then
the person-id→name resolution. -/
def teamLeaderForCategory (std : J) (names : List (J × PlayerName))
    (category : String) : Except PyErr PlayerStatistic := do
  let categoryList ← getField std category >>= asArr
  let field ← match categoryList with
    | [] => Except.error PyErr.indexError
    | e :: _ => Except.ok e
  let value ← getField field "value"
  let person ← getField field "personId"
  let name ← playerFullName names person
  Except.ok ⟨category, name, value⟩

/-- The `for category in self.statCategories()` loop of
`_extractTeamLeaders`, over an explicit category list. -/
def teamLeadersLoop (std : J) (names : List (J × PlayerName)) :
    List String → Except PyErr (List PlayerStatistic)
  | [] => Except.ok []
  | c :: cs => do
    let stat ← teamLeaderForCategory std names c
    let rest ← teamLeadersLoop std names cs
    Except.ok (stat :: rest)

/-- `_extractTeamLeaders` (lines 221-238): drop the extra fields via
`json['league']['standard']`, then produce one `PlayerStatistic` per
category, taking the first player only.  The category loop iterates the
`_STAT_CATEGORIES` frozenset, whose iteration order CPython leaves
implementation-defined, so the embedding takes the iteration order as the
explicit argument `order`: the program's behaviour is
`extractTeamLeaders order` for *some* permutation `order` of
`STAT_CATEGORIES`, not for a specified one. -/
def extractTeamLeaders (order : List String) (j : J)
    (names : List (J × PlayerName)) : Except PyErr (List PlayerStatistic) := do
  let league ← getField j "league"
  let std ← getField league "standard"
  teamLeadersLoop std names order

/-- `_extractTeamRecord` (lines 206-219), with field accesses and
`int`/`float` conversions in the source's evaluation order. -/
structure TeamRecord : Type where
  total : Record
  home : Record
  away : Record
  last_ten : Record
  conference_rank : Int
  division_rank : Int
  streak : Streak
  games_behind : Rat
  win_percentage : Rat

/-- `_extractTeamRecord` (lines 206-219). -/
def extractTeamRecord (e : J) : Except PyErr TeamRecord := do
  let win ← getField e "win" >>= pyInt
  let loss ← getField e "loss" >>= pyInt
  let homeWin ← getField e "homeWin" >>= pyInt
  let homeLoss ← getField e "homeLoss" >>= pyInt
  let awayWin ← getField e "awayWin" >>= pyInt
  let awayLoss ← getField e "awayLoss" >>= pyInt
  let lastTenWin ← getField e "lastTenWin" >>= pyInt
  let lastTenLoss ← getField e "lastTenLoss" >>= pyInt
  let confRank ← getField e "confRank" >>= pyInt
  let divRank ← getField e "divRank" >>= pyInt
  let streakGames ← getField e "streak" >>= pyInt
  let isWinStreak ← getField e "isWinStreak"
  let gamesBehind ← getField e "gamesBehind" >>= pyFloat
  let winPct ← getField e "winPct" >>= pyFloat
  Except.ok
    { total := ⟨win, loss⟩
      home := ⟨homeWin, homeLoss⟩
      away := ⟨awayWin, awayLoss⟩
      last_ten := ⟨lastTenWin, lastTenLoss⟩
      conference_rank := confRank
      division_rank := divRank
      streak := ⟨streakGames, isWinStreak⟩
      games_behind := gamesBehind
      win_percentage := winPct }

/-- The list comprehension of `_extractGameLeadersStats` (lines 196-197):
resolve `p['personId']` to a full name for each listed player. -/
def mapPersons (names : List (J × PlayerName)) :
    List J → Except PyErr (List PlayerName)
  | [] => Except.ok []
  | p :: ps => do
    let pid ← getField p "personId"
    let nm ← playerFullName names pid
    let rest ← mapPersons names ps
    Except.ok (nm :: rest)

/-- One iteration of the category loop of `_extractGameLeadersStats`
(lines 195-202): the players list first, then the shared value. -/
def gameLeaderForCategory (j : J) (names : List (J × PlayerName))
    (category : String) : Except PyErr LeaderStatistic := do
  let categoryObj ← getField j category
  let playersJ ← getField categoryObj "players" >>= asArr
  let players ← mapPersons names playersJ
  let value ← getField categoryObj "value"
  Except.ok ⟨category, players, value⟩

/-- `_extractGameLeadersStats` (lines 193-204): the fixed
points/rebounds/assists loop. -/
def extractGameLeadersStats (j : J) (names : List (J × PlayerName)) :
    Except PyErr (List LeaderStatistic) := do
  let points ← gameLeaderForCategory j names "points"
  let rebounds ← gameLeaderForCategory j names "rebounds"
  let assists ← gameLeaderForCategory j names "assists"
  Except.ok [points, rebounds, assists]

/-- The dictionary built by `_extractLeadersFromBoxScore` (lines 172-191),
as a typed record. -/
structure BoxLeaders : Type where
  home_team_name : J
  away_team_name : J
  home_leaders : List LeaderStatistic
  away_leaders : List LeaderStatistic

/-- `_extractLeadersFromBoxScore` (lines 172-191), with accesses in the
source's evaluation order (vTeam tricode before hTeam tricode, home
leaders before away leaders). -/
def extractLeadersFromBoxScore (j : J) (names : List (J × PlayerName)) :
    Except PyErr BoxLeaders := do
  let game_data ← getField j "basicGameData"
  let stats ← getField j "stats"
  let vTeam ← getField game_data "vTeam"
  let away_team_name ← getField vTeam "triCode"
  let hTeam ← getField game_data "hTeam"
  let home_team_name ← getField hTeam "triCode"
  let hTeamStats ← getField stats "hTeam"
  let hLeadersJ ← getField hTeamStats "leaders"
  let home_leaders ← extractGameLeadersStats hLeadersJ names
  let vTeamStats ← getField stats "vTeam"
  let vLeadersJ ← getField vTeamStats "leaders"
  let away_leaders ← extractGameLeadersStats vLeadersJ names
  Except.ok ⟨home_team_name, away_team_name, home_leaders, away_leaders⟩

/-- The `game_info` dictionary built per scoreboard entry by
`_extractGamesFromScoreboard` (lines 277-286), as a typed record.  The
`period` field keeps the whole raw period object, as the source does. -/
structure GameInfo : Type where
  game_id : J
  home_team : J
  home_team_id : J
  away_team : J
  away_team_id : J
  start_date : J
  period : J
  ended : Bool
  text_nugget : J

/-- One iteration of the loop of `_extractGamesFromScoreboard`, with field
accesses in the order of the dictionary literal (lines 277-286). -/
def extractGameInfo (g : J) : Except PyErr GameInfo := do
  let game_id ← getField g "gameId"
  let hTeam ← getField g "hTeam"
  let home_team ← getField hTeam "triCode"
  let home_team_id ← getField hTeam "teamId"
  let vTeam ← getField g "vTeam"
  let away_team ← getField vTeam "triCode"
  let away_team_id ← getField vTeam "teamId"
  let start_date ← getField g "startDateEastern"
  let period ← getField g "period"
  let statusNum ← getField g "statusNum"
  let nugget ← getField g "nugget"
  let text_nugget ← getField nugget "text"
  Except.ok ⟨game_id, home_team, home_team_id, away_team, away_team_id,
             start_date, period, pyEqNum statusNum 3, text_nugget⟩

/-- The `for g in json['games']` loop of `_extractGamesFromScoreboard`. -/
def extractGamesList : List J → Except PyErr (List GameInfo)
  | [] => Except.ok []
  | g :: gs => do
    let gi ← extractGameInfo g
    let rest ← extractGamesList gs
    Except.ok (gi :: rest)

/-- `_extractGamesFromScoreboard` (lines 272-288). -/
def extractGamesFromScoreboard (j : J) : Except PyErr (List GameInfo) := do
  let gamesJ ← getField j "games" >>= asArr
  extractGamesList gamesJ

/-- `_isGameInProgress` (lines 269-270):
`game['period']['current'] != 0`. -/
def isGameInProgress (game : GameInfo) : Except PyErr Bool := do
  let current ← getField game.period "current"
  Except.ok (!(pyEqNum current 0))

/-- `_getGamesInProgress` (lines 266-267): the list comprehension
`[g for g in games if self._isGameInProgress(g)]`. -/
def getGamesInProgress : List GameInfo → Except PyErr (List GameInfo)
  | [] => Except.ok []
  | g :: gs => do
    let b ← isGameInProgress g
    let rest ← getGamesInProgress gs
    Except.ok (if b then g :: rest else rest)

/-- Whether a game involves the given team id, per the condition of
`_findGameInProgress` (lines 244-245). -/
def gameInvolves (team_id : String) (g : GameInfo) : Bool :=
  g.home_team_id == J.str team_id || g.away_team_id == J.str team_id

/-- `_findGameInProgress` (lines 240-247): scan the games in progress in
document order and return the first one involving the team (the team id
obtained from the tricode→id dictionary is a string). -/
def findGameInProgress (team_id : String) (games : List GameInfo) :
    Except PyErr (Option GameInfo) := do
  let inProgress ← getGamesInProgress games
  Except.ok (inProgress.find? (gameInvolves team_id))

/-- `isTeamPlaying` (lines 249-251) after the tricode→id resolution, over
the games extracted from today's scoreboard. -/
def isTeamPlaying (team_id : String) (games : List GameInfo) :
    Except PyErr Bool := do
  let found ← findGameInProgress team_id games
  Except.ok found.isSome

/- ------------------------------------------------------------------ -/
/- Endpoint URL construction (src/nbastats.py lines 393-435, 493-504). -/
/- Python `str.replace` scans left to right and replaces each            -/
/- non-overlapping occurrence; the three fixed replacements the code     -/
/- performs are embedded as structural recursions over the char list.    -/
/- ------------------------------------------------------------------ -/

/-- `link.replace('10s', '15m')`, the body of `_15MinMaxAgeLink`
(lines 503-504). -/
def repl10s : List Char → List Char
  | '1' :: '0' :: 's' :: rest => '1' :: '5' :: 'm' :: repl10s rest
  | c :: rest => c :: repl10s rest
  | [] => []

/-- `_15MinMaxAgeLink` (lines 503-504). -/
def fifteenMinMaxAgeLink (s : String) : String :=
  ⟨repl10s s.data⟩

/-- `string.replace('\x7b\x7b', '\x7b')`, the first replacement of
`_doubleBracketToSingle` (line 494). -/
def replLBrace : List Char → List Char
  | '\x7b' :: '\x7b' :: rest => '\x7b' :: replLBrace rest
  | c :: rest => c :: replLBrace rest
  | [] => []

/-- `s.replace('\x7d\x7d', '\x7d')`, the second replacement of
`_doubleBracketToSingle` (line 495). -/
def replRBrace : List Char → List Char
  | '\x7d' :: '\x7d' :: rest => '\x7d' :: replRBrace rest
  | c :: rest => c :: replRBrace rest
  | [] => []

/-- `_doubleBracketToSingle` (lines 493-495): collapse doubled braces,
opening braces first. -/
def doubleBracketToSingle (s : String) : String :=
  ⟨replRBrace (replLBrace s.data)⟩

/-- Generic left-to-right, non-overlapping replacement of a non-empty
pattern (Python `str.replace`), written with a step budget so it is
structurally recursive; one budget unit is spent per output position, so a
budget of the input's length always suffices. -/
def replaceFuel (pat repl : List Char) : Nat → List Char → List Char
  | _, [] => []
  | 0, s => s
  | fuel + 1, c :: t =>
    if pat.isPrefixOf (c :: t) ∧ pat ≠ [] then
      repl ++ replaceFuel pat repl fuel ((c :: t).drop pat.length)
    else
      c :: replaceFuel pat repl fuel t

/-- Python `s.replace(pat, repl)` for a non-empty pattern. -/
def replaceList (pat repl s : List Char) : List Char :=
  replaceFuel pat repl s.length s

/-- `s.format(field=value)` for a template whose only holes are the named
placeholder `\x7bfield\x7d` (the substituted values contain no brace
characters, so substituting named fields one at a time agrees with
Python's single-pass `str.format`). -/
def pyFormat (field value s : String) : String :=
  ⟨replaceList ('\x7b' :: field.data ++ ['\x7d']) value.data s.data⟩

/-- Whether `pat` occurs as a contiguous substring. -/
def containsSub (pat : List Char) : List Char → Bool
  | [] => pat.isEmpty
  | c :: t => pat.isPrefixOf (c :: t) || containsSub pat t

/-- `self._API_SERVER` (line 39). -/
def API_SERVER : String := "https://data.nba.net"

/-- `_addBaseURL` (lines 497-498). -/
def addBaseURL (path : String) : String :=
  API_SERVER ++ path

/-- `_todayJSONLink` (lines 500-501) applied to the `links` object of an
already-fetched bootstrap document. -/
def todayJSONLink (links : List (String × String)) (endpoint : String) :
    Except PyErr String :=
  match dlookup links endpoint with
  | some l => Except.ok l
  | none => Except.error (PyErr.keyError (J.str endpoint))

/-- `_todayEntryPointURL` (lines 397-398). -/
def todayEntryPointURL : String :=
  addBaseURL "/15m/prod/v1/today.json"

/-- `_scoreboardURL` (lines 400-401): no interval rewrite. -/
def scoreboardURL (links : List (String × String)) : Except PyErr String :=
  (todayJSONLink links "todayScoreboard").map addBaseURL

/-- `_playerListURL` (lines 404-406). -/
def playerListURL (links : List (String × String)) : Except PyErr String :=
  (todayJSONLink links "leagueRosterPlayers").map
    (fun l => addBaseURL (fifteenMinMaxAgeLink l))

/-- `_teamListURL` (lines 408-410). -/
def teamListURL (links : List (String × String)) : Except PyErr String :=
  (todayJSONLink links "teams").map
    (fun l => addBaseURL (fifteenMinMaxAgeLink l))

/-- `_teamLeadersURL` (lines 412-417): collapse braces, substitute the
team id, rewrite the interval, add the base. -/
def teamLeadersURL (team_id : String) (links : List (String × String)) :
    Except PyErr String :=
  (todayJSONLink links "teamLeaders").map
    (fun l => addBaseURL (fifteenMinMaxAgeLink
      (pyFormat "teamUrlCode" team_id (doubleBracketToSingle l))))

/-- `_standingsURL` (lines 419-421). -/
def standingsURL (links : List (String × String)) : Except PyErr String :=
  (todayJSONLink links "leagueUngroupedStandings").map
    (fun l => addBaseURL (fifteenMinMaxAgeLink l))

/-- `_scoreBoxURL` (lines 423-427): rewrite the interval, collapse braces,
substitute the game date and game id, add the base. -/
def scoreBoxURL (starting_date game_id : String)
    (links : List (String × String)) : Except PyErr String :=
  (todayJSONLink links "boxscore").map
    (fun l => addBaseURL
      (pyFormat "gameId" game_id
        (pyFormat "gameDate" starting_date
          (doubleBracketToSingle (fifteenMinMaxAgeLink l)))))

/-- `_conferenceStandingsURL` (lines 429-431). -/
def conferenceStandingsURL (links : List (String × String)) :
    Except PyErr String :=
  (todayJSONLink links "leagueConfStandings").map
    (fun l => addBaseURL (fifteenMinMaxAgeLink l))

/-- `_divisionStandingsURL` (lines 433-435). -/
def divisionStandingsURL (links : List (String × String)) :
    Except PyErr String :=
  (todayJSONLink links "leagueDivStandings").map
    (fun l => addBaseURL (fifteenMinMaxAgeLink l))

/- ------------------------------------------------------------------ -/
/- Playoff matchups.  The engine operations `playoffMatchUps` and       -/
/- `currentPlayoffRound` that src/plugin.py (lines 207-238) calls are   -/
/- not part of src/; the record shape is taken from the field accesses  -/
/- of `_playoffMatchUpToString` (lines 310-333) and the extraction is   -/
/- modelled from the specification.                                     -/
/- ------------------------------------------------------------------ -/

/-- The `PlayoffGame` named tuple consumed by `_playoffMatchUpToString`
(src/plugin.py lines 310-333): seeds, team names, win counts, the
completion flag and the per-side winner flags. -/
structure PlayoffMatchup : Type where
  top_seed : Nat
  top_team : String
  top_wins : Nat
  bottom_seed : Nat
  bottom_team : String
  bottom_wins : Nat
  is_completed : Bool
  top_is_winner : Bool
  bottom_is_winner : Bool

/-- Modelled from the spec: one raw bracket entry of the playoff document
consumed by the engine's playoff-matchup extraction (`playoffMatchUps`,
absent from src/) — both participant slots with their seeds and the series
win counts of a best-of-seven series. -/
structure PlayoffSeries : Type where
  top_seed : Nat
  top_team : String
  top_wins : Nat
  bottom_seed : Nat
  bottom_team : String
  bottom_wins : Nat

/-- Modelled from the spec: the engine's playoff-matchup extraction
(§4.4) computes the `is_completed` flag and the per-side winner flags from
the series win counts (a best-of-seven series is complete when one side
has won four games, and that side is the winner) and exposes them,
together with the win counts, as data. -/
def mkPlayoffMatchup (s : PlayoffSeries) : PlayoffMatchup :=
  { top_seed := s.top_seed
    top_team := s.top_team
    top_wins := s.top_wins
    bottom_seed := s.bottom_seed
    bottom_team := s.bottom_team
    bottom_wins := s.bottom_wins
    is_completed := s.top_wins == 4 || s.bottom_wins == 4
    top_is_winner := s.top_wins == 4
    bottom_is_winner := s.bottom_wins == 4 }

/-- Modelled from the spec: the winner-take-all ("game 7") condition
`top_wins == bottom_wins == 3` on a matchup that is not complete — the
condition §4.4 requires the engine to compute and expose (the same
condition the presentation layer tests at src/plugin.py line 324). -/
def isWinnerTakeAll (m : PlayoffMatchup) : Bool :=
  m.top_wins == 3 && m.bottom_wins == 3 && !m.is_completed

/- ------------------------------------------------------------------ -/
/- plugin.py: ordinal formatting (`_numberToOrdinal`, lines 502-509). -/
/- ------------------------------------------------------------------ -/

/-- `_numberToOrdinal` from src/plugin.py: the `[10, 20]` range is
exceptional; otherwise the suffix is chosen by the last digit via
`{1: 'st', 2: 'nd', 3: 'rd'}.get(number % 10, 'th')`. -/
def numberToOrdinal (number : Nat) : String :=
  let suffix :=
    if 10 ≤ number ∧ number ≤ 20 then "th"
    else if number % 10 = 1 then "st"
    else if number % 10 = 2 then "nd"
    else if number % 10 = 3 then "rd"
    else "th"
  toString number ++ suffix

/- ================================================================== -/
/- Helper lemmas.                                                      -/
/- ================================================================== -/

/-- Unconditional unfolding of `repl10s` in its fall-through case. -/
theorem repl10s_cons (c : Char) (rest : List Char)
    (h : ∀ (r : List Char), c = '1' → rest = '0' :: 's' :: r → False) :
    repl10s (c :: rest) = c :: repl10s rest := by
  rw [repl10s.eq_def]
  split
  · rename_i r heq
    injection heq with h1 h2
    exact (h r h1 h2).elim
  · rename_i c2 rest2 hno heq
    injection heq with h1 h2
    rw [h1, h2]
  · rename_i heq
    exact absurd heq (by simp)

/-- The replacement `10s → 15m` never changes the first character. -/
theorem repl10s_head (s : List Char) : (repl10s s).head? = s.head? := by
  induction s using repl10s.induct <;> simp [repl10s]

/-- A one-character pattern is a prefix exactly when it is the head. -/
theorem isPrefixOf_one (a : Char) (l : List Char) :
    ([a].isPrefixOf l) = true ↔ l.head? = some a := by
  cases l with
  | nil => simp [List.isPrefixOf]
  | cons b bs =>
    simp only [List.isPrefixOf, Bool.and_eq_true, beq_iff_eq, List.head?_cons,
      Option.some_inj]
    constructor
    · rintro ⟨h, -⟩
      exact h.symm
    · intro h
      exact ⟨h.symm, trivial⟩

/-- A two-character pattern is a prefix exactly when the list starts with
those two characters. -/
theorem isPrefixOf_pair (a b : Char) (l : List Char) :
    ([a, b].isPrefixOf l) = true ↔ ∃ t, l = a :: b :: t := by
  cases l with
  | nil => simp [List.isPrefixOf]
  | cons x xs =>
    cases xs with
    | nil => simp [List.isPrefixOf]
    | cons y ys =>
      simp only [List.isPrefixOf, Bool.and_eq_true, beq_iff_eq, List.cons.injEq]
      constructor
      · rintro ⟨h1, h2, -⟩
        exact ⟨ys, h1.symm, h2.symm, rfl⟩
      · rintro ⟨t, h1, h2, h3⟩
        exact ⟨h1.symm, h2.symm, trivial⟩

/-- If `0s` is a prefix of the output of the `10s → 15m` replacement, it
was already a prefix of its input. -/
theorem zs_of_repl10s (r : List Char)
    (hp : (['0','s'].isPrefixOf (repl10s r)) = true) :
    (['0','s'].isPrefixOf r) = true := by
  induction r using repl10s.induct with
  | case1 rest ih =>
    rw [show repl10s ('1' :: '0' :: 's' :: rest) = '1' :: '5' :: 'm' :: repl10s rest from rfl] at hp
    simp [List.isPrefixOf] at hp
  | case2 c rest h ih =>
    rw [repl10s_cons c rest h] at hp
    simp only [List.isPrefixOf, Bool.and_eq_true, beq_iff_eq] at hp ⊢
    obtain ⟨hc, hs⟩ := hp
    refine ⟨hc, ?_⟩
    have h1 := (isPrefixOf_one 's' (repl10s rest)).mp (by simpa [List.isPrefixOf] using hs)
    rw [repl10s_head] at h1
    have h2 := (isPrefixOf_one 's' rest).mpr h1
    simpa [List.isPrefixOf] using h2
  | case3 =>
    simp [repl10s, List.isPrefixOf] at hp

/-- Searching for `10s` may skip over an inserted `15m`. -/
theorem skip15m (r : List Char) :
    containsSub ['1','0','s'] ('1' :: '5' :: 'm' :: r) = containsSub ['1','0','s'] r := by
  simp [containsSub, List.isPrefixOf]

/-- The output of the `10s → 15m` replacement never contains `10s`. -/
theorem no10s (s : List Char) : containsSub ['1','0','s'] (repl10s s) = false := by
  induction s using repl10s.induct with
  | case1 rest ih =>
    rw [show repl10s ('1' :: '0' :: 's' :: rest) = '1' :: '5' :: 'm' :: repl10s rest from rfl,
        skip15m]
    exact ih
  | case2 c rest h ih =>
    rw [repl10s_cons c rest h]
    simp only [containsSub, ih, Bool.or_false]
    by_cases hc : c = '1'
    · subst hc
      by_cases hz : (['0','s'].isPrefixOf (repl10s rest)) = true
      · obtain ⟨t, ht⟩ := (isPrefixOf_pair '0' 's' rest).mp (zs_of_repl10s rest hz)
        exact (h t rfl ht).elim
      · simp only [Bool.not_eq_true] at hz
        simp [List.isPrefixOf, hz]
    · simp [List.isPrefixOf, Ne.symm hc]
  | case3 =>
    simp [repl10s, containsSub]

/-- A substring of the right part is a substring of the concatenation. -/
theorem containsSub_append (p a b : List Char)
    (h : containsSub p b = true) : containsSub p (a ++ b) = true := by
  induction a with
  | nil => simpa using h
  | cons c t ih => simp [containsSub, ih]

/- ================================================================== -/
/- Claim theorems.                                                     -/
/- ================================================================== -/

/-- C9: ordinal formatting maps 1→"1st", 2→"2nd", 3→"3rd", 4→"4th",
11→"11th", 21→"21st"; every number in the exceptional range 10-20
inclusive takes the suffix "th", and every other number takes the suffix
determined by its last digit (1→st, 2→nd, 3→rd, otherwise th). -/
theorem claim_C9_ordinal :
    numberToOrdinal 1 = "1st" ∧ numberToOrdinal 2 = "2nd" ∧
    numberToOrdinal 3 = "3rd" ∧ numberToOrdinal 4 = "4th" ∧
    numberToOrdinal 11 = "11th" ∧ numberToOrdinal 21 = "21st" ∧
    (∀ n : Nat, 10 ≤ n → n ≤ 20 → numberToOrdinal n = toString n ++ "th") ∧
    (∀ n : Nat, ¬(10 ≤ n ∧ n ≤ 20) →
      numberToOrdinal n = toString n ++
        (if n % 10 = 1 then "st" else if n % 10 = 2 then "nd"
         else if n % 10 = 3 then "rd" else "th")) := by
  refine ⟨by decide, by decide, by decide, by decide, by decide, by decide, ?_, ?_⟩
  · intro n h1 h2
    simp only [numberToOrdinal]
    rw [if_pos ⟨h1, h2⟩]
  · intro n h
    simp only [numberToOrdinal]
    rw [if_neg h]

/-- Witness for C9 at the concrete inputs 15 (exceptional range) and 23
(last-digit rule). -/
theorem claim_C9_ordinal_witness :
    (10 ≤ 15 ∧ 15 ≤ 20 ∧ numberToOrdinal 15 = toString 15 ++ "th") ∧
    (¬(10 ≤ 23 ∧ 23 ≤ 20) ∧ numberToOrdinal 23 = toString 23 ++ "rd") := by
  refine ⟨⟨by decide, by decide, claim_C9_ordinal.2.2.2.2.2.2.1 15 (by decide) (by decide)⟩,
    ⟨by decide, ?_⟩⟩
  have h := claim_C9_ordinal.2.2.2.2.2.2.2 23 (by decide)
  simpa using h

/-- C5: for every raw playoff series of a best-of-seven (at most seven
games played), the matchup record the engine extraction produces exposes
the win counts, its winner-take-all condition holds exactly when both
sides have three wins (and then the matchup is not complete), and a
completed matchup never has both winner flags set. -/
theorem claim_C5_playoff_matchup :
    ∀ s : PlayoffSeries, s.top_wins + s.bottom_wins ≤ 7 →
      ((mkPlayoffMatchup s).is_completed = true →
        (mkPlayoffMatchup s).top_is_winner = true →
        (mkPlayoffMatchup s).bottom_is_winner = false) ∧
      (isWinnerTakeAll (mkPlayoffMatchup s) = true ↔
        s.top_wins = 3 ∧ s.bottom_wins = 3) ∧
      ((mkPlayoffMatchup s).top_wins = s.top_wins ∧
       (mkPlayoffMatchup s).bottom_wins = s.bottom_wins ∧
       (mkPlayoffMatchup s).is_completed =
         (s.top_wins == 4 || s.bottom_wins == 4)) := by
  intro s h
  refine ⟨?_, ?_, rfl, rfl, rfl⟩
  · simp only [mkPlayoffMatchup, isWinnerTakeAll, Bool.or_eq_true, beq_iff_eq]
    intro hc ht
    have : ¬ s.bottom_wins = 4 := by omega
    simp [this]
  · simp only [mkPlayoffMatchup, isWinnerTakeAll, Bool.and_eq_true,
      Bool.not_eq_true', Bool.or_eq_false_iff, beq_iff_eq, beq_eq_false_iff_ne]
    constructor
    · rintro ⟨⟨h3, h3b⟩, -⟩
      exact ⟨h3, h3b⟩
    · rintro ⟨h3, h3b⟩
      refine ⟨⟨h3, h3b⟩, ?_, ?_⟩ <;> omega

/-- Witness for C5 at a 3-3 series. -/
theorem claim_C5_playoff_matchup_witness :
    (3 + 3 ≤ 7) ∧
    isWinnerTakeAll (mkPlayoffMatchup ⟨1, "GSW", 3, 2, "LAC", 3⟩) = true := by
  refine ⟨by decide, ?_⟩
  exact ((claim_C5_playoff_matchup ⟨1, "GSW", 3, 2, "LAC", 3⟩ (by decide)).2.1).mpr
    ⟨rfl, rfl⟩

/-- A concrete bootstrap `links` object with the short-interval marker in
every path, shaped like the upstream `today.json`. -/
def sampleLinks : List (String × String) :=
  [("todayScoreboard", "/10s/prod/v1/20170111/scoreboard.json"),
   ("leagueRosterPlayers", "/10s/prod/v1/2016/players.json"),
   ("teams", "/10s/prod/v1/2016/teams.json"),
   ("leagueUngroupedStandings", "/10s/prod/v1/current/standings_all_no_sort_keys.json"),
   ("leagueConfStandings", "/10s/prod/v1/current/standings_conference.json"),
   ("leagueDivStandings", "/10s/prod/v1/current/standings_division.json"),
   ("teamLeaders", "/10s/prod/v1/2016/team_stats_leaders_\x7b\x7bteamUrlCode\x7d\x7d.json"),
   ("boxscore", "/10s/prod/v1/\x7b\x7bgameDate\x7d\x7d/\x7b\x7bgameId\x7d\x7d_boxscore.json")]

/-- C4: every endpoint resolver except the live scoreboard rewrites the
short-polling marker `10s` to `15m` before use — each `10s` occurrence
becomes `15m` and no `10s` survives the rewrite, and each non-scoreboard
resolver's URL is the base followed by a path free of `10s` (for the
box-score endpoint the template is rewritten before the caller's values
are substituted) — while the scoreboard URL is built from the raw link, so
a `10s` marker in it is kept. -/
theorem claim_C4_interval_rewrite :
    (∀ s : String, containsSub ['1','0','s'] (fifteenMinMaxAgeLink s).data = false) ∧
    (∀ rest : List Char, repl10s ('1' :: '0' :: 's' :: rest) = '1' :: '5' :: 'm' :: repl10s rest) ∧
    (∀ links l, dlookup links "leagueRosterPlayers" = some l →
      ∃ path, playerListURL links = Except.ok (API_SERVER ++ path) ∧
        containsSub ['1','0','s'] path.data = false) ∧
    (∀ links l, dlookup links "teams" = some l →
      ∃ path, teamListURL links = Except.ok (API_SERVER ++ path) ∧
        containsSub ['1','0','s'] path.data = false) ∧
    (∀ links l, dlookup links "leagueUngroupedStandings" = some l →
      ∃ path, standingsURL links = Except.ok (API_SERVER ++ path) ∧
        containsSub ['1','0','s'] path.data = false) ∧
    (∀ links l, dlookup links "leagueConfStandings" = some l →
      ∃ path, conferenceStandingsURL links = Except.ok (API_SERVER ++ path) ∧
        containsSub ['1','0','s'] path.data = false) ∧
    (∀ links l, dlookup links "leagueDivStandings" = some l →
      ∃ path, divisionStandingsURL links = Except.ok (API_SERVER ++ path) ∧
        containsSub ['1','0','s'] path.data = false) ∧
    (∀ tid links l, dlookup links "teamLeaders" = some l →
      ∃ path, teamLeadersURL tid links = Except.ok (API_SERVER ++ path) ∧
        containsSub ['1','0','s'] path.data = false) ∧
    (∀ d g links l, dlookup links "boxscore" = some l →
      scoreBoxURL d g links = Except.ok (addBaseURL (pyFormat "gameId" g
        (pyFormat "gameDate" d (doubleBracketToSingle (fifteenMinMaxAgeLink l))))) ∧
      containsSub ['1','0','s'] (fifteenMinMaxAgeLink l).data = false) ∧
    (∀ links l, dlookup links "todayScoreboard" = some l →
      scoreboardURL links = Except.ok (API_SERVER ++ l) ∧
      (containsSub ['1','0','s'] l.data = true →
        containsSub ['1','0','s'] (API_SERVER ++ l).data = true)) := by
  have hno : ∀ s : String, containsSub ['1','0','s'] (fifteenMinMaxAgeLink s).data = false := by
    intro s
    show containsSub ['1','0','s'] (repl10s s.data) = false
    exact no10s s.data
  refine ⟨hno, fun rest => rfl, ?_, ?_, ?_, ?_, ?_, ?_, ?_, ?_⟩
  · intro links l h
    exact ⟨fifteenMinMaxAgeLink l,
      by simp [playerListURL, todayJSONLink, h, addBaseURL, Except.map], hno l⟩
  · intro links l h
    exact ⟨fifteenMinMaxAgeLink l,
      by simp [teamListURL, todayJSONLink, h, addBaseURL, Except.map], hno l⟩
  · intro links l h
    exact ⟨fifteenMinMaxAgeLink l,
      by simp [standingsURL, todayJSONLink, h, addBaseURL, Except.map], hno l⟩
  · intro links l h
    exact ⟨fifteenMinMaxAgeLink l,
      by simp [conferenceStandingsURL, todayJSONLink, h, addBaseURL, Except.map], hno l⟩
  · intro links l h
    exact ⟨fifteenMinMaxAgeLink l,
      by simp [divisionStandingsURL, todayJSONLink, h, addBaseURL, Except.map], hno l⟩
  · intro tid links l h
    exact ⟨fifteenMinMaxAgeLink (pyFormat "teamUrlCode" tid (doubleBracketToSingle l)),
      by simp [teamLeadersURL, todayJSONLink, h, addBaseURL, Except.map],
      hno (pyFormat "teamUrlCode" tid (doubleBracketToSingle l))⟩
  · intro d g links l h
    exact ⟨by simp [scoreBoxURL, todayJSONLink, h, Except.map], hno l⟩
  · intro links l h
    refine ⟨by simp [scoreboardURL, todayJSONLink, h, addBaseURL, Except.map], ?_⟩
    intro hc
    rw [String.data_append]
    exact containsSub_append _ _ _ hc

/-- Witness for C4 at the concrete bootstrap links `sampleLinks`. -/
theorem claim_C4_interval_rewrite_witness :
    (dlookup sampleLinks "leagueRosterPlayers" =
      some "/10s/prod/v1/2016/players.json") ∧
    (∃ path, playerListURL sampleLinks = Except.ok (API_SERVER ++ path) ∧
      containsSub ['1','0','s'] path.data = false) ∧
    (dlookup sampleLinks "todayScoreboard" =
      some "/10s/prod/v1/20170111/scoreboard.json") ∧
    (containsSub ['1','0','s'] ("/10s/prod/v1/20170111/scoreboard.json" : String).data = true) ∧
    (scoreboardURL sampleLinks =
      Except.ok (API_SERVER ++ "/10s/prod/v1/20170111/scoreboard.json") ∧
     containsSub ['1','0','s']
       (API_SERVER ++ "/10s/prod/v1/20170111/scoreboard.json").data = true) := by
  refine ⟨rfl, ?_, rfl, by decide, ?_, ?_⟩
  · exact claim_C4_interval_rewrite.2.2.1 sampleLinks _ rfl
  · exact (claim_C4_interval_rewrite.2.2.2.2.2.2.2.2.2 sampleLinks _ rfl).1
  · exact (claim_C4_interval_rewrite.2.2.2.2.2.2.2.2.2 sampleLinks _ rfl).2 (by decide)

/-- C8 counterexample: with the bootstrap link `leagueRosterPlayers`
bound to the template `/data/15m/league/\x7b\x7bseason\x7d\x7d/roster.json`, the
player-list resolver returns the template verbatim (no brace collapsing,
no season substitution), not the path with "2016" substituted. -/
theorem claim_C8_counterexample :
    playerListURL [("leagueRosterPlayers",
        "/data/15m/league/\x7b\x7bseason\x7d\x7d/roster.json")] =
      Except.ok "https://data.nba.net/data/15m/league/\x7b\x7bseason\x7d\x7d/roster.json" ∧
    playerListURL [("leagueRosterPlayers",
        "/data/15m/league/\x7b\x7bseason\x7d\x7d/roster.json")] ≠
      Except.ok "https://data.nba.net/data/15m/league/2016/roster.json" := by
  constructor
  · rfl
  · intro hcontra
    have h1 : playerListURL [("leagueRosterPlayers",
        "/data/15m/league/\x7b\x7bseason\x7d\x7d/roster.json")] =
      Except.ok "https://data.nba.net/data/15m/league/\x7b\x7bseason\x7d\x7d/roster.json" := rfl
    rw [h1] at hcontra
    injection hcontra with hs
    exact absurd hs (by decide)

/-- C8 amended: the player-list resolver applies only the `10s → 15m`
rewrite to the `leagueRosterPlayers` link, leaving the doubled braces and
the `season` placeholder untouched; the repository's brace-collapsing
helper, followed by substituting season "2016", would indeed yield
`/data/15m/league/2016/roster.json` (that machinery is used only for the
team-leaders and box-score endpoints). -/
theorem claim_C8_amended :
    playerListURL [("leagueRosterPlayers",
        "/data/15m/league/\x7b\x7bseason\x7d\x7d/roster.json")] =
      Except.ok "https://data.nba.net/data/15m/league/\x7b\x7bseason\x7d\x7d/roster.json" ∧
    doubleBracketToSingle "/data/15m/league/\x7b\x7bseason\x7d\x7d/roster.json" =
      "/data/15m/league/\x7bseason\x7d/roster.json" ∧
    pyFormat "season" "2016"
        (doubleBracketToSingle "/data/15m/league/\x7b\x7bseason\x7d\x7d/roster.json") =
      "/data/15m/league/2016/roster.json" :=
  ⟨rfl, rfl, rfl⟩

/-- A team-list document (the `league.standard` array) with two franchise
entries and one non-franchise entry. -/
def sampleTeamDoc : List TeamEntry :=
  [⟨"GSW", "1610612744", true⟩, ⟨"LAL", "1610612747", true⟩,
   ⟨"EST", "0", false⟩]

/-- A roster document (the `league.standard` array) with two players. -/
def samplePlayerDoc : List PlayerEntry :=
  [⟨J.str "2544", J.str "LeBron", J.str "James"⟩,
   ⟨J.str "201939", J.str "Stephen", J.str "Curry"⟩]

/-- A previously built person-id dictionary. -/
def cachedNames : List (J × PlayerName) :=
  [(J.str "2544", ⟨J.str "LeBron", J.str "James"⟩)]

/-- A cache state in which all three dictionaries exist. -/
def stCached : TeamCaches :=
  ⟨some cachedNames, some [("1610612747", "LAL")], some [("LAL", "1610612747")]⟩

/-- C1: on a cache-hit fetch with existing in-memory mappings, the team
dictionaries and the person dictionary are returned unchanged and not
rebuilt; on a fresh fetch (or with a missing mapping) they are rebuilt
from the fetched document and replace the old ones wholesale. -/
theorem claim_C1_cache_hit_reuse :
    (∀ (doc : List TeamEntry) (st : TeamCaches)
        (t2i i2t : List (String × String)),
      st.team_tricodes_to_ids = some t2i →
      st.team_ids_to_tricodes = some i2t →
      updateTeamDictionaries doc true st = st) ∧
    (∀ (doc : List TeamEntry) (fc : Bool) (st : TeamCaches),
      fc = false ∨ st.team_tricodes_to_ids = none ∨
        st.team_ids_to_tricodes = none →
      (updateTeamDictionaries doc fc st).team_tricodes_to_ids =
        some (buildTricodeToIds doc) ∧
      (updateTeamDictionaries doc fc st).team_ids_to_tricodes =
        some (buildIdsToTricodes doc)) ∧
    (∀ (doc : List PlayerEntry) (st : TeamCaches)
        (pd : List (J × PlayerName)),
      st.person_ids = some pd →
      fetchPersonIDdict doc true st = (st, pd)) ∧
    (∀ (doc : List PlayerEntry) (fc : Bool) (st : TeamCaches),
      fc = false ∨ st.person_ids = none →
      fetchPersonIDdict doc fc st =
        ({ st with person_ids := some (buildPersonIds doc) },
          buildPersonIds doc)) := by
  refine ⟨?_, ?_, ?_, ?_⟩
  · intro doc st t2i i2t h1 h2
    simp [updateTeamDictionaries, h1, h2]
  · intro doc fc st h
    have hneg : ¬(fc = true ∧ st.team_tricodes_to_ids ≠ none ∧
        st.team_ids_to_tricodes ≠ none) := by
      rcases h with rfl | h | h
      · simp
      · simp [h]
      · simp [h]
    rw [updateTeamDictionaries, if_neg hneg]
    exact ⟨rfl, rfl⟩
  · intro doc st pd h
    simp [fetchPersonIDdict, h]
  · intro doc fc st h
    obtain ⟨pids, i2t, t2i⟩ := st
    rcases h with rfl | h
    · cases pids <;> simp [fetchPersonIDdict]
    · have hp : pids = none := h
      subst hp
      cases fc <;> simp [fetchPersonIDdict]

/-- Witness for C1 at a concrete cache state holding all three mappings
and concrete team/roster documents. -/
theorem claim_C1_cache_hit_reuse_witness :
    stCached.team_tricodes_to_ids = some [("LAL", "1610612747")] ∧
    stCached.team_ids_to_tricodes = some [("1610612747", "LAL")] ∧
    stCached.person_ids = some cachedNames ∧
    updateTeamDictionaries sampleTeamDoc true stCached = stCached ∧
    fetchPersonIDdict samplePlayerDoc true stCached = (stCached, cachedNames) ∧
    (updateTeamDictionaries sampleTeamDoc false stCached).team_tricodes_to_ids =
      some (buildTricodeToIds sampleTeamDoc) ∧
    fetchPersonIDdict samplePlayerDoc false stCached =
      ({ stCached with person_ids := some (buildPersonIds samplePlayerDoc) },
        buildPersonIds samplePlayerDoc) :=
  ⟨rfl, rfl, rfl,
   claim_C1_cache_hit_reuse.1 sampleTeamDoc stCached _ _ rfl rfl,
   claim_C1_cache_hit_reuse.2.2.1 samplePlayerDoc stCached cachedNames rfl,
   (claim_C1_cache_hit_reuse.2.1 sampleTeamDoc false stCached (Or.inl rfl)).1,
   claim_C1_cache_hit_reuse.2.2.2 samplePlayerDoc false stCached (Or.inl rfl)⟩

/-- Every stored tricode is already upper case, so Python's `str.upper`
fixes it. -/
theorem tricodes_upper_fixed : ∀ t ∈ TEAM_TRICODES, pyUpper t = t := by
  decide

/-- C10: `teamRecord` validates its tricode case-insensitively but then
looks the original, un-normalized string up in the tricode→id dictionary:
for a lower- or mixed-case spelling of a valid tricode (valid up to
upper-casing but not itself a key), the validity check passes yet the
lookup fails with a KeyError — not with the invalid-parameter ValueError —
whereas `teamLeaders`/`gameLeaders` normalize to upper case first and
succeed. -/
theorem claim_C10_case_normalization :
    ∀ (team : String) (dict : List (String × String)) (v : String),
      isTriCodeValid team = true →
      team ∉ TEAM_TRICODES →
      (∀ k v', dlookup dict k = some v' → k ∈ TEAM_TRICODES) →
      dlookup dict (pyUpper team) = some v →
      teamRecordTeamId team dict =
        Except.error (PyErr.keyError (J.str team)) ∧
      teamLeadersTeamId team dict = Except.ok v ∧
      (Except.error (PyErr.keyError (J.str team)) ≠
        (Except.error (PyErr.valueError "Invalid team value") :
          Except PyErr String)) := by
  intro team dict v hvalid hnotmem hkeys hupper
  have hmemUp : pyUpper team ∈ TEAM_TRICODES := by
    simpa [isTriCodeValid] using hvalid
  refine ⟨?_, ?_, ?_⟩
  · rw [teamRecordTeamId, hvalid]
    simp only [Bool.not_true, Bool.false_eq_true, if_false]
    rw [teamIDLookup]
    cases hl : dlookup dict team with
    | none => rfl
    | some v' => exact absurd (hkeys team v' hl) hnotmem
  · rw [teamLeadersTeamId]
    have hparse : parseTeamTricode team = Except.ok (pyUpper team) := by
      rw [parseTeamTricode]
      have : isTriCodeValid (pyUpper team) = true := by
        simp only [isTriCodeValid]
        rw [tricodes_upper_fixed (pyUpper team) hmemUp]
        simpa [isTriCodeValid] using hvalid
      simp [this]
    rw [hparse]
    show teamIDLookup dict (pyUpper team) = Except.ok v
    rw [teamIDLookup, hupper]
  · intro hcontra
    injection hcontra with h
    exact PyErr.noConfusion h

/-- Witness for C10 at the spelling "lal" with the dictionary built from a
team-list document containing the single franchise entry LAL. -/
theorem claim_C10_case_normalization_witness :
    isTriCodeValid "lal" = true ∧
    "lal" ∉ TEAM_TRICODES ∧
    dlookup [("LAL", "1610612747")] (pyUpper "lal") = some "1610612747" ∧
    teamRecordTeamId "lal" [("LAL", "1610612747")] =
      Except.error (PyErr.keyError (J.str "lal")) ∧
    teamLeadersTeamId "lal" [("LAL", "1610612747")] =
      Except.ok "1610612747" := by
  have hkeys : ∀ k v', dlookup [("LAL", "1610612747")] k = some v' →
      k ∈ TEAM_TRICODES := by
    intro k v' h
    simp only [dlookup] at h
    split at h
    · rename_i hbeq
      have : "LAL" = k := by simpa using hbeq
      rw [← this]
      decide
    · exact absurd h (by simp)
  have h := claim_C10_case_normalization "lal" [("LAL", "1610612747")]
    "1610612747" (by decide) (by decide) hkeys (by decide)
  exact ⟨by decide, by decide, by decide, h.1, h.2.1⟩

/-- `dlookup` misses keys that are not bound. -/
theorem dlookup_eq_none {κ α : Type} [BEq κ] [LawfulBEq κ]
    (l : List (κ × α)) (k : κ) (h : k ∉ l.map Prod.fst) :
    dlookup l k = none := by
  induction l with
  | nil => rfl
  | cons p rest ih =>
    simp only [List.map_cons, List.mem_cons, not_or] at h
    obtain ⟨h1, h2⟩ := h
    rw [dlookup, ih h2]
    have hb : (p.1 == k) = false := beq_eq_false_iff_ne.mpr fun e => h1 e.symm
    simp [hb]

/-- When the bound keys are distinct, `dlookup` finds each binding. -/
theorem dlookup_mem_nodup {κ α : Type} [BEq κ] [LawfulBEq κ]
    (l : List (κ × α)) (k : κ) (v : α)
    (hmem : (k, v) ∈ l) (hnd : (l.map Prod.fst).Nodup) :
    dlookup l k = some v := by
  induction l with
  | nil => cases hmem
  | cons p rest ih =>
    simp only [List.map_cons, List.nodup_cons] at hnd
    obtain ⟨hp, hnd2⟩ := hnd
    rcases List.mem_cons.mp hmem with heq | hmem2
    · rcases heq.symm with rfl
      rw [dlookup, dlookup_eq_none rest k (by simpa using hp)]
      simp
    · rw [dlookup, ih hmem2 hnd2]

/-- C2: over franchise entries with distinct tricodes and distinct team
ids, the tricode→id and id→tricode dictionaries built from one team-list
document invert each other (tricode→id→tricode and id→tricode→id both
round-trip), and the updater either leaves both mappings untouched or
rebuilds both together from the same document. -/
theorem claim_C2_roundtrip :
    ∀ (doc : List TeamEntry),
      ((doc.filter (·.isNBAFranchise)).map (·.tricode)).Nodup →
      ((doc.filter (·.isNBAFranchise)).map (·.teamId)).Nodup →
      (∀ T, T ∈ (doc.filter (·.isNBAFranchise)).map (·.tricode) →
        ∃ i, dlookup (buildTricodeToIds doc) T = some i ∧
          dlookup (buildIdsToTricodes doc) i = some T) ∧
      (∀ i, i ∈ (doc.filter (·.isNBAFranchise)).map (·.teamId) →
        ∃ T, dlookup (buildIdsToTricodes doc) i = some T ∧
          dlookup (buildTricodeToIds doc) T = some i) ∧
      (∀ (fc : Bool) (st : TeamCaches),
        updateTeamDictionaries doc fc st = st ∨
        ((updateTeamDictionaries doc fc st).team_tricodes_to_ids =
            some (buildTricodeToIds doc) ∧
         (updateTeamDictionaries doc fc st).team_ids_to_tricodes =
            some (buildIdsToTricodes doc))) := by
  intro doc h1 h2
  have hkeysT : (buildTricodeToIds doc).map Prod.fst =
      (doc.filter (·.isNBAFranchise)).map (·.tricode) := by
    simp [buildTricodeToIds, List.map_map, Function.comp]
  have hkeysI : (buildIdsToTricodes doc).map Prod.fst =
      (doc.filter (·.isNBAFranchise)).map (·.teamId) := by
    simp [buildIdsToTricodes, List.map_map, Function.comp]
  refine ⟨?_, ?_, ?_⟩
  · intro T hT
    obtain ⟨t, ht, rfl⟩ := List.mem_map.mp hT
    refine ⟨t.teamId, ?_, ?_⟩
    · exact dlookup_mem_nodup _ _ _
        (List.mem_map_of_mem (fun t => (t.tricode, t.teamId)) ht)
        (by rw [hkeysT]; exact h1)
    · exact dlookup_mem_nodup _ _ _
        (List.mem_map_of_mem (fun t => (t.teamId, t.tricode)) ht)
        (by rw [hkeysI]; exact h2)
  · intro i hi
    obtain ⟨t, ht, rfl⟩ := List.mem_map.mp hi
    refine ⟨t.tricode, ?_, ?_⟩
    · exact dlookup_mem_nodup _ _ _
        (List.mem_map_of_mem (fun t => (t.teamId, t.tricode)) ht)
        (by rw [hkeysI]; exact h2)
    · exact dlookup_mem_nodup _ _ _
        (List.mem_map_of_mem (fun t => (t.tricode, t.teamId)) ht)
        (by rw [hkeysT]; exact h1)
  · intro fc st
    by_cases hc : fc = true ∧ st.team_tricodes_to_ids ≠ none ∧
        st.team_ids_to_tricodes ≠ none
    · left
      rw [updateTeamDictionaries, if_pos hc]
    · right
      rw [updateTeamDictionaries, if_neg hc]
      exact ⟨rfl, rfl⟩

/-- Witness for C2 at a concrete team-list document, round-tripping the
tricode GSW. -/
theorem claim_C2_roundtrip_witness :
    ((sampleTeamDoc.filter (·.isNBAFranchise)).map (·.tricode)).Nodup ∧
    ((sampleTeamDoc.filter (·.isNBAFranchise)).map (·.teamId)).Nodup ∧
    "GSW" ∈ (sampleTeamDoc.filter (·.isNBAFranchise)).map (·.tricode) ∧
    (∃ i, dlookup (buildTricodeToIds sampleTeamDoc) "GSW" = some i ∧
      dlookup (buildIdsToTricodes sampleTeamDoc) i = some "GSW") := by
  refine ⟨by decide, by decide, by decide, ?_⟩
  exact (claim_C2_roundtrip sampleTeamDoc (by decide) (by decide)).1
    "GSW" (by decide)

/-- Binding a raised error short-circuits. -/
theorem err_bind {α β : Type} (e : PyErr) (f : α → Except PyErr β) :
    (Except.error e : Except PyErr α) >>= f = Except.error e := rfl

/-- Binding a successful value continues. -/
theorem ok_bind {α β : Type} (a : α) (f : α → Except PyErr β) :
    (Except.ok a : Except PyErr α) >>= f = f a := rfl

/-- C6 counterexample: the team-record extractor applied to a JSON object
missing the `win` field fails with the low-level KeyError of the first
dictionary access, which is not the `MalformedResponse` error kind the
claim prescribes (no presence check precedes the indexing). -/
theorem claim_C6_counterexample :
    extractTeamRecord (J.obj []) =
      Except.error (PyErr.keyError (J.str "win")) ∧
    PyErr.keyError (J.str "win") ≠ PyErr.malformedResponse := by
  refine ⟨rfl, ?_⟩
  intro h
  exact PyErr.noConfusion h

/-- C6 amended: extractors never catch, and a failed lookup surfaces as
the unconverted low-level error of the failing access — the KeyError of
the first missing field (in evaluation order), or a TypeError when the
document is not an object — never as a `MalformedResponse`; no presence
check is performed before indexing. -/
theorem claim_C6_amended :
    (∀ fields, dlookup fields "win" = none →
      extractTeamRecord (J.obj fields) =
        Except.error (PyErr.keyError (J.str "win"))) ∧
    (∀ fields names, dlookup fields "basicGameData" = none →
      extractLeadersFromBoxScore (J.obj fields) names =
        Except.error (PyErr.keyError (J.str "basicGameData"))) ∧
    (∀ fields, dlookup fields "games" = none →
      extractGamesFromScoreboard (J.obj fields) =
        Except.error (PyErr.keyError (J.str "games"))) ∧
    (∀ elems : List J,
      extractTeamRecord (J.arr elems) = Except.error PyErr.typeError) := by
  refine ⟨?_, ?_, ?_, ?_⟩
  · intro fields h
    simp [extractTeamRecord, getField, h, err_bind]
  · intro fields names h
    simp [extractLeadersFromBoxScore, getField, h, err_bind]
  · intro fields h
    simp [extractGamesFromScoreboard, getField, h, err_bind]
  · intro elems
    rfl

/-- Witness for C6 amended at empty documents. -/
theorem claim_C6_amended_witness :
    dlookup ([] : List (String × J)) "win" = none ∧
    extractTeamRecord (J.obj []) =
      Except.error (PyErr.keyError (J.str "win")) ∧
    extractLeadersFromBoxScore (J.obj []) [] =
      Except.error (PyErr.keyError (J.str "basicGameData")) ∧
    extractGamesFromScoreboard (J.obj []) =
      Except.error (PyErr.keyError (J.str "games")) ∧
    extractTeamRecord (J.arr []) = Except.error PyErr.typeError :=
  ⟨rfl, claim_C6_amended.1 [] rfl, claim_C6_amended.2.1 [] [] rfl,
   claim_C6_amended.2.2.1 [] rfl, claim_C6_amended.2.2.2 []⟩

/-- The category loop of `_extractTeamLeaders` succeeds categorywise: when
every category is present with a non-empty player list and a resolvable
first player, it yields one statistic per category in list order. -/
theorem teamLeadersLoop_ok (std : J) (names : List (J × PlayerName))
    (hd : String → J) (tl : String → List J) (vl pid : String → J)
    (nm : String → PlayerName) :
    ∀ cs : List String,
      (∀ c ∈ cs,
        getField std c = Except.ok (J.arr (hd c :: tl c)) ∧
        getField (hd c) "value" = Except.ok (vl c) ∧
        getField (hd c) "personId" = Except.ok (pid c) ∧
        dlookup names (pid c) = some (nm c)) →
      teamLeadersLoop std names cs =
        Except.ok (cs.map (fun c => ⟨c, nm c, vl c⟩)) := by
  intro cs
  induction cs with
  | nil => intro _; rfl
  | cons c cs ih =>
    intro h
    obtain ⟨h1, h2, h3, h4⟩ := h c (List.mem_cons_self c cs)
    have hcat : teamLeaderForCategory std names c =
        Except.ok ⟨c, nm c, vl c⟩ := by
      simp [teamLeaderForCategory, h1, h2, h3, h4, asArr, playerFullName,
        ok_bind, err_bind]
    rw [teamLeadersLoop, hcat,
      ih (fun c2 hc2 => h c2 (List.mem_cons_of_mem _ hc2))]
    simp [ok_bind]

/-- An entry of a leaders document: a value and a person id. -/
def sampleLeaderEntry : J :=
  J.obj [("value", J.str "27.8"), ("personId", J.str "2544")]

/-- A category map binding each recognized category to a singleton list. -/
def sampleCategoryMap : J :=
  J.obj (STAT_CATEGORIES.map (fun c => (c, J.arr [sampleLeaderEntry])))

/-- A well-formed team-leaders document. -/
def sampleLeadersDoc : J :=
  J.obj [("league", J.obj [("standard", sampleCategoryMap)])]

/-- A possible iteration order of the `_STAT_CATEGORIES` frozenset that
differs from the literal's written order (the first two members
transposed): CPython guarantees nothing beyond visiting each member
exactly once. -/
def altCategoryOrder : List String :=
  ["trpg", "ppg", "apg", "fgp", "ftp",
   "tpp", "bpg", "spg", "tpg", "pfpg"]

/-- C3 counterexample: under a perfectly legitimate frozenset iteration
order (`altCategoryOrder`, a permutation of the category set), extraction
of a well-formed leaders document succeeds but does *not* list the
entries in the fixed documented category order — the output order is the
implementation-defined set-iteration order, so the claim's "fixed
category order" conjunct is false of the program. -/
theorem claim_C3_counterexample :
    altCategoryOrder.Perm STAT_CATEGORIES ∧
    altCategoryOrder ≠ STAT_CATEGORIES ∧
    extractTeamLeaders altCategoryOrder sampleLeadersDoc cachedNames =
      Except.ok (altCategoryOrder.map (fun c =>
        (⟨c, ⟨J.str "LeBron", J.str "James"⟩, J.str "27.8"⟩ :
          PlayerStatistic))) ∧
    (altCategoryOrder.map (fun c =>
        (⟨c, ⟨J.str "LeBron", J.str "James"⟩, J.str "27.8"⟩ :
          PlayerStatistic))).map (fun st => st.category) ≠
      STAT_CATEGORIES :=
  ⟨by decide, by decide, rfl, by decide⟩

/-- C3 amended: for a well-formed team-leaders document (league/standard
present, every recognized category bound to a non-empty list whose first
player resolves to a name), extraction returns exactly one
`PlayerStatistic` per recognized category — ten entries, their categories
a permutation of the recognized set, each built from the first-ranked
player of its category's list — listed in the frozenset's iteration
order, which is an implementation-defined permutation of the ten
categories rather than a fixed order. -/
theorem claim_C3_team_leaders :
    ∀ (order : List String) (j lg std : J) (names : List (J × PlayerName))
      (hd : String → J) (tl : String → List J) (vl pid : String → J)
      (nm : String → PlayerName),
      order.Perm STAT_CATEGORIES →
      getField j "league" = Except.ok lg →
      getField lg "standard" = Except.ok std →
      (∀ c ∈ STAT_CATEGORIES,
        getField std c = Except.ok (J.arr (hd c :: tl c)) ∧
        getField (hd c) "value" = Except.ok (vl c) ∧
        getField (hd c) "personId" = Except.ok (pid c) ∧
        dlookup names (pid c) = some (nm c)) →
      extractTeamLeaders order j names =
        Except.ok (order.map
          (fun c => (⟨c, nm c, vl c⟩ : PlayerStatistic))) ∧
      (order.map (fun c => (⟨c, nm c, vl c⟩ : PlayerStatistic))).length
        = 10 ∧
      ((order.map (fun c => (⟨c, nm c, vl c⟩ : PlayerStatistic))).map
        (fun st => st.category)).Perm STAT_CATEGORIES ∧
      (∀ (k : Nat) (hk : k < order.length),
        (order.map
          (fun c => (⟨c, nm c, vl c⟩ : PlayerStatistic))).get
            ⟨k, by simpa using hk⟩ =
          ⟨order.get ⟨k, hk⟩, nm (order.get ⟨k, hk⟩),
            vl (order.get ⟨k, hk⟩)⟩) := by
  intro order j lg std names hd tl vl pid nm hperm hjl hls hcats
  have hcats2 : ∀ c ∈ order,
      getField std c = Except.ok (J.arr (hd c :: tl c)) ∧
      getField (hd c) "value" = Except.ok (vl c) ∧
      getField (hd c) "personId" = Except.ok (pid c) ∧
      dlookup names (pid c) = some (nm c) :=
    fun c hc => hcats c (hperm.mem_iff.mp hc)
  have hcatmap : (order.map
      (fun c => (⟨c, nm c, vl c⟩ : PlayerStatistic))).map
        (fun st => st.category) = order := by
    simp [List.map_map, Function.comp_def]
  refine ⟨?_, ?_, ?_, ?_⟩
  · rw [extractTeamLeaders.eq_def]
    rw [hjl]
    rw [ok_bind]
    rw [hls]
    rw [ok_bind]
    exact teamLeadersLoop_ok std names hd tl vl pid nm order hcats2
  · rw [List.length_map, hperm.length_eq]
    rfl
  · rw [hcatmap]
    exact hperm
  · intro k hk
    simp [List.getElem_map]

/-- Witness for C3 at a concrete well-formed leaders document, iterated
in the transposed order `altCategoryOrder`. -/
theorem claim_C3_team_leaders_witness :
    altCategoryOrder.Perm STAT_CATEGORIES ∧
    getField sampleLeadersDoc "league" =
      Except.ok (J.obj [("standard", sampleCategoryMap)]) ∧
    extractTeamLeaders altCategoryOrder sampleLeadersDoc cachedNames =
      Except.ok (altCategoryOrder.map (fun c =>
        (⟨c, ⟨J.str "LeBron", J.str "James"⟩, J.str "27.8"⟩ :
          PlayerStatistic))) ∧
    ((altCategoryOrder.map (fun c =>
        (⟨c, ⟨J.str "LeBron", J.str "James"⟩, J.str "27.8"⟩ :
          PlayerStatistic))).map (fun st => st.category)).Perm
      STAT_CATEGORIES := by
  have h := claim_C3_team_leaders altCategoryOrder sampleLeadersDoc
    (J.obj [("standard", sampleCategoryMap)]) sampleCategoryMap cachedNames
    (fun _ => sampleLeaderEntry) (fun _ => []) (fun _ => J.str "27.8")
    (fun _ => J.str "2544") (fun _ => ⟨J.str "LeBron", J.str "James"⟩)
    (by decide) rfl rfl
    (by intro c hc; fin_cases hc <;> exact ⟨rfl, rfl, rfl, rfl⟩)
  exact ⟨by decide, rfl, h.1, h.2.2.1⟩

/-- The list comprehension of `_getGamesInProgress` keeps exactly the
games whose current-period value is non-zero, once every period object is
well-formed (the period-current values given by `pc`). -/
theorem getGamesInProgress_ok (pc : GameInfo → Int) :
    ∀ games : List GameInfo,
      (∀ g ∈ games, getField g.period "current" = Except.ok (J.num (pc g))) →
      getGamesInProgress games =
        Except.ok (games.filter (fun g => !(pyEqNum (J.num (pc g)) 0))) := by
  intro games
  induction games with
  | nil => intro _; rfl
  | cons g gs ih =>
    intro h
    have hb : isGameInProgress g =
        Except.ok (!(pyEqNum (J.num (pc g)) 0)) := by
      simp [isGameInProgress, h g (List.mem_cons_self g gs), ok_bind]
    rw [getGamesInProgress, hb,
      ih (fun g2 hg2 => h g2 (List.mem_cons_of_mem _ hg2))]
    simp only [ok_bind, List.filter_cons]

/-- C7: over a scoreboard whose games all carry an integer period-current
value (given by `pc`), a team id is reported as playing exactly when some
game of the document has a non-zero current period and lists the team as
home or away; and the game returned is the first such match in document
order. -/
theorem claim_C7_is_team_playing :
    ∀ (tid : String) (games : List GameInfo) (pc : GameInfo → Int),
      (∀ g ∈ games, getField g.period "current" = Except.ok (J.num (pc g))) →
      (isTeamPlaying tid games = Except.ok true ↔
        ∃ g, g ∈ games ∧ pc g ≠ 0 ∧ gameInvolves tid g = true) ∧
      (∀ (pre post : List GameInfo) (g : GameInfo),
        games = pre ++ g :: post →
        pc g ≠ 0 → gameInvolves tid g = true →
        (∀ g2 ∈ pre, ¬(pc g2 ≠ 0 ∧ gameInvolves tid g2 = true)) →
        findGameInProgress tid games = Except.ok (some g)) := by
  intro tid games pc h
  have hgip := getGamesInProgress_ok pc games h
  have hfind : findGameInProgress tid games =
      Except.ok ((games.filter
        (fun g => !(pyEqNum (J.num (pc g)) 0))).find? (gameInvolves tid)) := by
    simp [findGameInProgress, hgip, ok_bind]
  constructor
  · simp only [isTeamPlaying, hfind, ok_bind]
    constructor
    · intro he
      injection he with hb
      obtain ⟨g, hgmem, hinv⟩ := List.find?_isSome.mp (by rw [hb])
      obtain ⟨hgin, hpred⟩ := List.mem_filter.mp hgmem
      exact ⟨g, hgin, by simpa [pyEqNum] using hpred, hinv⟩
    · rintro ⟨g, hgin, hnz, hinv⟩
      have hmemf : g ∈ games.filter (fun g => !(pyEqNum (J.num (pc g)) 0)) :=
        List.mem_filter.mpr ⟨hgin, by simpa [pyEqNum] using hnz⟩
      have hs : ((games.filter
          (fun g => !(pyEqNum (J.num (pc g)) 0))).find?
            (gameInvolves tid)).isSome = true :=
        List.find?_isSome.mpr ⟨g, hmemf, hinv⟩
      rw [hs]
  · rintro pre post g rfl hnz hinv hpre
    rw [hfind, List.filter_append,
      List.filter_cons_of_pos (by simpa [pyEqNum] using hnz),
      List.find?_append]
    have hnone : ((pre.filter
        (fun g => !(pyEqNum (J.num (pc g)) 0))).find?
          (gameInvolves tid)) = none := by
      apply List.find?_eq_none.mpr
      intro x hx
      obtain ⟨hxpre, hxpred⟩ := List.mem_filter.mp hx
      intro hxinv
      exact hpre x hxpre ⟨by simpa [pyEqNum] using hxpred, hxinv⟩
    rw [hnone, List.find?_cons_of_pos _ hinv]
    rfl

/-- The period-current value of a game with a well-formed period object
(zero otherwise). -/
def periodCurrentOrZero (g : GameInfo) : Int :=
  match getField g.period "current" with
  | Except.ok (J.num n) => n
  | _ => 0

/-- A scoreboard entry whose game has not started (period-current 0). -/
def gameScheduled : GameInfo :=
  ⟨J.str "0021600100", J.str "BOS", J.str "1610612738", J.str "NYK",
   J.str "1610612752", J.str "20170111", J.obj [("current", J.num 0)],
   false, J.null⟩

/-- A scoreboard entry whose game is in its second period. -/
def gameLive : GameInfo :=
  ⟨J.str "0021600101", J.str "GSW", J.str "1610612744", J.str "LAL",
   J.str "1610612747", J.str "20170111", J.obj [("current", J.num 2)],
   false, J.null⟩

/-- Witness for C7: with one not-yet-started game and one live game, the
away team of the live game is playing, a team of the scheduled game is
not, and the live game is the one found. -/
theorem claim_C7_is_team_playing_witness :
    (∀ g ∈ [gameScheduled, gameLive],
      getField g.period "current" =
        Except.ok (J.num (periodCurrentOrZero g))) ∧
    isTeamPlaying "1610612747" [gameScheduled, gameLive] = Except.ok true ∧
    isTeamPlaying "1610612738" [gameScheduled, gameLive] = Except.ok false ∧
    findGameInProgress "1610612747" [gameScheduled, gameLive] =
      Except.ok (some gameLive) := by
  have hwf : ∀ g ∈ [gameScheduled, gameLive],
      getField g.period "current" =
        Except.ok (J.num (periodCurrentOrZero g)) := by
    intro g hg
    rcases List.mem_cons.mp hg with rfl | hg2
    · rfl
    · rcases List.mem_singleton.mp hg2 with rfl
      rfl
  have h := claim_C7_is_team_playing "1610612747"
    [gameScheduled, gameLive] periodCurrentOrZero hwf
  refine ⟨hwf, ?_, rfl, ?_⟩
  · exact h.1.mpr ⟨gameLive,
      List.mem_cons_of_mem _ (List.mem_cons_self _ _),
      by decide, rfl⟩
  · exact h.2 [gameScheduled] [] gameLive rfl (by decide) rfl
      (by
        intro g2 hg2
        rcases List.mem_singleton.mp hg2 with rfl
        rintro ⟨hnz2, -⟩
        exact hnz2 rfl)

end NBAStats
